import Mathlib

/-!
Shallow embedding of the GeoCrypt backend (src/backend) and verification of
the specification's claims about it.

Covered source files:
* `crypto_service.py` — AES-256-GCM file encryption glue, base64 key encoding.
* `geofence.py`       — location / wifi / time access validation.
* `ml_service.py`     — feature extraction and behaviour analysis.

Python byte strings are modelled as `List Nat` (each element a byte value),
Python strings as Lean `String`, Python exceptions as an explicit
`Except PyError` result.  The AES-GCM primitive provided by the PyCryptodome
library is modelled abstractly by a structure `GCM` carrying the documented
contract of the library (ciphertext of the plaintext's length, a 16-byte MAC
tag, decryption inverting encryption); the repository's own code — the byte
layout, slicing, and error flow — is translated literally.
-/

namespace GeoCrypt

/-- A Python exception as observed by callers of the backend functions.
`valueError` models `ValueError` / `binascii.Error` (a `ValueError` subclass),
`attributeError` models `AttributeError`. -/
inductive PyError where
  | valueError (msg : String)
  | attributeError (msg : String)
deriving DecidableEq

instance {ε α : Type} [DecidableEq ε] [DecidableEq α] : DecidableEq (Except ε α)
  | .ok a, .ok b =>
    if h : a = b then .isTrue (by rw [h])
    else .isFalse (fun he => h (Except.ok.inj he))
  | .ok _, .error _ => .isFalse (fun he => Except.noConfusion he)
  | .error _, .ok _ => .isFalse (fun he => Except.noConfusion he)
  | .error e, .error f =>
    if h : e = f then .isTrue (by rw [h])
    else .isFalse (fun he => h (Except.error.inj he))

/-! ## Base64 (CPython `base64.b64encode` / `base64.b64decode`)

`crypto_service.key_to_string` / `string_to_key` call CPython's
`base64.b64encode` and `base64.b64decode` (the latter with its default
`validate=False`, i.e. `binascii.a2b_base64` in non-strict mode:
characters outside the base64 alphabet are silently discarded before
decoding, and `binascii.Error` is raised only when the remaining data
characters cannot form valid groups — count ≡ 1 (mod 4), or insufficient
trailing padding). -/

/-- The standard base64 alphabet. -/
def b64chars : List Char :=
  "ABCDEFGHIJKLMNOPQRSTUVWXYZabcdefghijklmnopqrstuvwxyz0123456789+/".data

/-- The alphabet character for a 6-bit value. -/
def charOfVal (v : Nat) : Char := b64chars.getD v 'A'

/-- The 6-bit value of an alphabet character (junk value 64 for others). -/
def valOfChar (c : Char) : Nat := b64chars.indexOf c

/-- Membership in the base64 alphabet. -/
def isB64Char (c : Char) : Bool := b64chars.contains c

/-- Characters kept by CPython's lenient base64 decoder: alphabet and `=`. -/
def isB64Kept (c : Char) : Bool := isB64Char c || c == '='

/-- `base64.b64encode`: three bytes become four alphabet characters, a
final one- or two-byte group is padded with `=`. -/
def b64encode : List Nat → List Char
  | b1 :: b2 :: b3 :: rest =>
      charOfVal (b1 / 4) :: charOfVal ((b1 % 4) * 16 + b2 / 16) ::
      charOfVal ((b2 % 16) * 4 + b3 / 64) :: charOfVal (b3 % 64) :: b64encode rest
  | [b1, b2] => [charOfVal (b1 / 4), charOfVal ((b1 % 4) * 16 + b2 / 16),
                 charOfVal ((b2 % 16) * 4), '=']
  | [b1] => [charOfVal (b1 / 4), charOfVal ((b1 % 4) * 16), '=', '=']
  | [] => []

/-- The 6-bit values of the data characters `b64encode` produces. -/
def encVals : List Nat → List Nat
  | b1 :: b2 :: b3 :: rest =>
      (b1 / 4) :: ((b1 % 4) * 16 + b2 / 16) :: ((b2 % 16) * 4 + b3 / 64) ::
      (b3 % 64) :: encVals rest
  | [b1, b2] => [b1 / 4, (b1 % 4) * 16 + b2 / 16, (b2 % 16) * 4]
  | [b1] => [b1 / 4, (b1 % 4) * 16]
  | [] => []

/-- Number of `=` padding characters `b64encode` appends. -/
def padLen : List Nat → Nat
  | _ :: _ :: _ :: rest => padLen rest
  | [_, _] => 1
  | [_] => 2
  | [] => 0

/-- Decode groups of four 6-bit values into three bytes; a trailing group of
three (resp. two) values yields two bytes (resp. one). -/
def decodeQuads : List Nat → List Nat
  | v1 :: v2 :: v3 :: v4 :: rest =>
      (v1 * 4 + v2 / 16) :: ((v2 % 16) * 16 + v3 / 4) :: ((v3 % 4) * 64 + v4) ::
      decodeQuads rest
  | [v1, v2, v3] => [v1 * 4 + v2 / 16, (v2 % 16) * 16 + v3 / 4]
  | [v1, v2] => [v1 * 4 + v2 / 16]
  | _ => []

/-- CPython `base64.b64decode` with `validate=False`: discard characters
outside the alphabet (keeping `=`), take the data characters before the
first `=`, and check that they can form valid groups given the padding. -/
def b64decode (s : List Char) : Except PyError (List Nat) :=
  let kept := s.filter isB64Kept
  let data := kept.takeWhile (fun c => c != '=')
  let pads := (kept.drop data.length).count '='
  let n := data.length
  if n % 4 == 1 then
    .error (.valueError "Invalid base64-encoded string")
  else if pads + n % 4 < 4 && n % 4 != 0 then
    .error (.valueError "Incorrect padding")
  else
    .ok (decodeQuads (data.map valOfChar))

/-- `CryptoService.key_to_string`: `base64.b64encode(key).decode('utf-8')`. -/
def key_to_string (key : List Nat) : String := String.mk (b64encode key)

/-- `CryptoService.string_to_key`: `base64.b64decode(key_str)`. -/
def string_to_key (key_str : String) : Except PyError (List Nat) :=
  b64decode key_str.data

/-- Spec-side notion (from the spec's words, for comparison only): a string
is a valid textual encoding of a key iff it is exactly the standard base64
encoding of some byte sequence. -/
def isValidKeyEncoding (s : String) : Prop :=
  ∃ k : List Nat, (∀ b ∈ k, b < 256) ∧ key_to_string k = s

/-! ## AES-GCM (abstract model of the PyCryptodome primitive) -/

/-- Abstract model of the AES-GCM primitive used through
`Crypto.Cipher.AES.new(key, AES.MODE_GCM)`.  `enc` is the keystream
encryption of the plaintext, `dec0` its inverse, and `mac` the GHASH-based
authentication tag over the ciphertext; PyCryptodome's documented contract
is carried as proof fields: ciphertext has the plaintext's length, the tag
is 16 bytes, and decryption inverts encryption under the same key/nonce. -/
structure GCM where
  enc : List Nat → List Nat → List Nat → List Nat
  dec0 : List Nat → List Nat → List Nat → List Nat
  mac : List Nat → List Nat → List Nat → List Nat
  enc_length : ∀ k n p, (enc k n p).length = p.length
  mac_length : ∀ k n c, (mac k n c).length = 16
  dec0_enc : ∀ k n p, dec0 k n (enc k n p) = p

/-- `CryptoService.encrypt_file`: `cipher.encrypt_and_digest(file_data)`
followed by `cipher.nonce + tag + ciphertext`.  The nonce is the random
value the library generated for the cipher object (16 bytes by default for
`AES.MODE_GCM`); it is passed here as an explicit argument. -/
def encrypt_file (G : GCM) (key nonce file_data : List Nat) : List Nat :=
  nonce ++ G.mac key nonce (G.enc key nonce file_data) ++ G.enc key nonce file_data

/-- `CryptoService.decrypt_file`: slice `encrypted_data[:16]`,
`encrypted_data[16:32]`, `encrypted_data[32:]`, then
`AES.new(key, AES.MODE_GCM, nonce=nonce)` (which raises `ValueError` on an
empty nonce) and `cipher.decrypt_and_verify(ciphertext, tag)` (which raises
`ValueError` when the received tag differs from the computed MAC). -/
def decrypt_file (G : GCM) (key encrypted_data : List Nat) :
    Except PyError (List Nat) :=
  let nonce := encrypted_data.take 16
  let tag := (encrypted_data.drop 16).take 16
  let ciphertext := encrypted_data.drop 32
  if nonce = [] then .error (.valueError "Nonce cannot be empty")
  else if G.mac key nonce ciphertext = tag then .ok (G.dec0 key nonce ciphertext)
  else .error (.valueError "MAC check failed")

/-- Spec-side decrypt (from the spec's words, for comparison only): split
the blob as a 12-byte nonce, a 16-byte tag at offset 12, and ciphertext
from offset 28, then verify and decrypt as the library does. -/
def decrypt_file_specSplit (G : GCM) (key encrypted_data : List Nat) :
    Except PyError (List Nat) :=
  let nonce := encrypted_data.take 12
  let tag := (encrypted_data.drop 12).take 16
  let ciphertext := encrypted_data.drop 28
  if nonce = [] then .error (.valueError "Nonce cannot be empty")
  else if G.mac key nonce ciphertext = tag then .ok (G.dec0 key nonce ciphertext)
  else .error (.valueError "MAC check failed")

/-- A concrete instantiation of the abstract GCM interface, used to
evaluate the glue code on explicit inputs. -/
def toyGCM : GCM where
  enc := fun _ _ p => p
  dec0 := fun _ _ c => c
  mac := fun k n c => (List.range 16).map (fun i => (k.sum + n.sum + c.sum + i) % 256)
  enc_length := fun _ _ _ => rfl
  mac_length := by intro k n c; simp
  dec0_enc := fun _ _ _ => rfl

/-! ## Geofence (`geofence.py`)

Python floats are modelled as real numbers; f-string float formatting
(`{x:.2f}` and the plain `{x}`) is abstracted by an explicit pair of
formatting functions, since only the shape of the diagnostic strings —
never the digits themselves — is at stake in the claims.  The current
wall-clock reading `datetime.now().strftime("%H:%M")` inside
`validate_time` is an ambient input of the code and is passed explicitly
as the already-formatted `HH:MM` string `now`. -/

/-- Abstraction of Python float formatting: `fixed2 x` stands for
`f"{x:.2f}"` and `plain x` for `f"{x}"`. -/
structure FloatFmt where
  fixed2 : ℝ → String
  plain : ℝ → String

/-- The request dictionary as read by `validate_access` via `.get`:
absent keys are `none`. -/
structure AccessRequest where
  latitude : Option ℝ
  longitude : Option ℝ
  wifi_ssid : Option String

/-- The config dictionary as read by `validate_access` via `.get`. -/
structure PolicyConfig where
  latitude : Option ℝ
  longitude : Option ℝ
  radius : Option ℝ
  allowed_ssid : Option String
  start_time : Option String
  end_time : Option String

/-- The per-signal diagnostic strings of the returned `validations` dict
(keys `location`, `wifi`, `time`). -/
structure Validations where
  location : String
  wifi : String
  time : String
deriving DecidableEq

/-- The dict returned by `validate_access`. -/
structure AccessDecision where
  allowed : Bool
  reason : String
  validations : Validations
deriving DecidableEq

/-- `math.radians`: degrees to radians. -/
noncomputable def radians (x : ℝ) : ℝ := x * (Real.pi / 180)

/-- `math.atan2 y x` (two-argument arctangent, C library semantics on
reals; the signed-zero distinctions of floats collapse at `x = 0`). -/
noncomputable def atan2 (y x : ℝ) : ℝ :=
  if 0 < x then Real.arctan (y / x)
  else if x < 0 ∧ 0 ≤ y then Real.arctan (y / x) + Real.pi
  else if x < 0 ∧ y < 0 then Real.arctan (y / x) - Real.pi
  else if x = 0 ∧ 0 < y then Real.pi / 2
  else if x = 0 ∧ y < 0 then -(Real.pi / 2)
  else 0

/-- `GeofenceValidator.calculate_distance`: haversine distance in metres
with mean Earth radius 6 371 000 m. -/
noncomputable def calculate_distance (lat1 lon1 lat2 lon2 : ℝ) : ℝ :=
  let R : ℝ := 6371000
  let lat1_rad := radians lat1
  let lat2_rad := radians lat2
  let delta_lat := radians (lat2 - lat1)
  let delta_lon := radians (lon2 - lon1)
  let a := Real.sin (delta_lat / 2) ^ 2 +
    Real.cos lat1_rad * Real.cos lat2_rad * Real.sin (delta_lon / 2) ^ 2
  let c := 2 * atan2 (Real.sqrt a) (Real.sqrt (1 - a))
  R * c

open Classical in
/-- `GeofenceValidator.validate_location`. -/
noncomputable def validate_location (fmt : FloatFmt)
    (employee_lat employee_lon config_lat config_lon radius : ℝ) :
    Bool × String :=
  let distance := calculate_distance employee_lat employee_lon config_lat config_lon
  if distance ≤ radius then
    (true, "Location validated (distance: " ++ fmt.fixed2 distance ++ "m)")
  else
    (false, "Outside allowed area (distance: " ++ fmt.fixed2 distance ++
      "m, max: " ++ fmt.plain radius ++ "m)")

/-- Lexicographic `≤` on code-point sequences. -/
def natListLe : List Nat → List Nat → Bool
  | [], _ => true
  | _ :: _, [] => false
  | a :: as, b :: bs => a < b || (a == b && natListLe as bs)

/-- Python string `<=` (lexicographic by code point), as a Bool. -/
def pyStrLe (a b : String) : Bool :=
  natListLe (a.data.map Char.toNat) (b.data.map Char.toNat)

/-- Python `str.lower` on one character (ASCII range; the SSIDs compared
in this code are ASCII). -/
def pyLower (c : Char) : Char :=
  if 65 ≤ c.toNat ∧ c.toNat ≤ 90 then Char.ofNat (c.toNat + 32) else c

/-- Python `str.lower`. -/
def strLower (s : String) : String := String.mk (s.data.map pyLower)

/-- `GeofenceValidator.validate_wifi`. -/
def validate_wifi (employee_ssid allowed_ssid : String) : Bool × String :=
  if employee_ssid = "" then (false, "WiFi SSID not provided")
  else if strLower employee_ssid = strLower allowed_ssid then
    (true, "WiFi validated (" ++ employee_ssid ++ ")")
  else (false, "Unauthorized WiFi network (" ++ employee_ssid ++ ")")

/-- `GeofenceValidator.validate_time`.  `now` is the current wall-clock
reading `datetime.now().strftime("%H:%M")`, made an explicit argument. -/
def validate_time (start_time end_time now : String) : Bool × String :=
  if pyStrLe start_time now && pyStrLe now end_time then
    (true, "Time validated (" ++ now ++ ")")
  else
    (false, "Outside allowed hours (current: " ++ now ++ ", allowed: " ++
      start_time ++ "-" ++ end_time ++ ")")

/-- `GeofenceValidator.validate_access`. -/
noncomputable def validate_access (fmt : FloatFmt) (request : AccessRequest)
    (config : PolicyConfig) (wfh_approved : Bool) (now : String) :
    AccessDecision :=
  if wfh_approved then
    { allowed := true
      reason := "Work from home approved"
      validations := { location := "bypassed", wifi := "bypassed", time := "bypassed" } }
  else
    let locRes := validate_location fmt (request.latitude.getD 0)
      (request.longitude.getD 0) (config.latitude.getD 0)
      (config.longitude.getD 0) (config.radius.getD 100)
    let wifiRes := validate_wifi (request.wifi_ssid.getD "")
      (config.allowed_ssid.getD "")
    let timeRes := validate_time (config.start_time.getD "09:00")
      (config.end_time.getD "17:00") now
    let reasons := (if locRes.1 then [] else [locRes.2]) ++
      (if wifiRes.1 then [] else [wifiRes.2]) ++
      (if timeRes.1 then [] else [timeRes.2])
    let allowed := locRes.1 && wifiRes.1 && timeRes.1
    { allowed := allowed
      reason := if allowed then "Access granted" else String.intercalate "; " reasons
      validations := { location := locRes.2, wifi := wifiRes.2, time := timeRes.2 } }

/-- Spec-side rendering (from the spec's words, for comparison only): the
messages of exactly the failing signals, in the given order. -/
def failingMessages (signals : List (Bool × String)) : List String :=
  (signals.filter (fun s => !s.1)).map (fun s => s.2)

/-! ## Anomaly detection (`ml_service.py`)

Only the code paths the claims touch are at stake: feature extraction and
its error flow through `detect_anomalies` and `analyze_employee_behavior`.
`datetime.fromisoformat` (applied after `.replace('Z', '+00:00')`) is an
external library routine; it is abstracted as an argument
`parseIso : String → Option (ℕ × ℕ)` yielding the parsed timestamp's
`(hour, weekday)`, with `none` modelling the `ValueError` it raises on an
unparsable string.  The fitted `IsolationForest` model's predictions are
abstracted as the `predict` field (already mapped through `pred == -1`). -/

/-- The `timestamp` value of an activity dict: either an already-parsed
`datetime` (only its hour and weekday are ever read) or an ISO string. -/
inductive TimestampVal where
  | dt (hour : Nat) (weekday : Nat)
  | str (s : String)
deriving DecidableEq

/-- An activity dict as read by the detector (`.get('timestamp')`). -/
structure Activity where
  timestamp : Option TimestampVal
deriving DecidableEq

/-- Detector state: the `is_trained` flag and the fitted model's
prediction function (true = anomaly, i.e. prediction `-1`). -/
structure AnomalyDetector where
  is_trained : Bool
  predict : List (List Nat) → List Bool

/-- The dict returned by `analyze_employee_behavior`. -/
structure AnalysisResult where
  total_activities : Nat
  suspicious_count : Nat
  risk_level : String
  patterns : List String
deriving DecidableEq

/-- One iteration of the feature loop in
`AnomalyDetector.extract_features`: parse a string timestamp, then read
`hour` and `weekday()`; `None.hour` raises `AttributeError`, an unparsable
string raises `ValueError` from `fromisoformat`. -/
def featureOf (parseIso : String → Option (Nat × Nat)) (activity : Activity) :
    Except PyError (List Nat) :=
  match activity.timestamp with
  | none => .error (.attributeError "NoneType has no attribute hour")
  | some (.dt hour weekday) => .ok [hour, weekday, 1]
  | some (.str s) =>
    match parseIso s with
    | some (hour, weekday) => .ok [hour, weekday, 1]
    | none => .error (.valueError "Invalid isoformat string")

/-- `AnomalyDetector.extract_features`: empty input short-circuits to an
empty array; otherwise the per-activity loop runs, and the first exception
aborts the whole extraction. -/
def extract_features (parseIso : String → Option (Nat × Nat))
    (activities : List Activity) : Except PyError (List (List Nat)) :=
  if activities = [] then .ok []
  else activities.mapM (featureOf parseIso)

/-- `AnomalyDetector.detect_anomalies`. -/
def detect_anomalies (parseIso : String → Option (Nat × Nat))
    (d : AnomalyDetector) (activities : List Activity) :
    Except PyError (List Bool) :=
  if !d.is_trained then .ok (List.replicate activities.length false)
  else do
    let features ← extract_features parseIso activities
    if features.length = 0 then pure []
    else pure (d.predict features)

/-- Hour of an activity whose timestamp is an already-parsed `datetime`
(`isinstance(act.get('timestamp'), datetime)`); `none` otherwise. -/
def dtHour (activity : Activity) : Option Nat :=
  match activity.timestamp with
  | some (.dt hour _) => some hour
  | _ => none

/-- `AnomalyDetector.analyze_employee_behavior`. -/
def analyze_employee_behavior (parseIso : String → Option (Nat × Nat))
    (d : AnomalyDetector) (activities : List Activity) :
    Except PyError AnalysisResult :=
  if activities = [] then
    .ok { total_activities := 0, suspicious_count := 0, risk_level := "low",
          patterns := [] }
  else do
    let anomalies ← detect_anomalies parseIso d activities
    let suspicious_count := anomalies.count true
    let risk_ratio : ℚ := (suspicious_count : ℚ) / (activities.length : ℚ)
    let risk_level :=
      if risk_ratio > 3 / 10 then "high"
      else if risk_ratio > 3 / 20 then "medium"
      else "low"
    let suspicious_activities :=
      ((activities.zip anomalies).filter (fun p => p.2)).map (fun p => p.1)
    let off_hours := suspicious_activities.filter (fun act =>
      match dtHour act with
      | some h => decide (h < 9) || decide (h > 17)
      | none => false)
    let patterns :=
      if suspicious_count > 0 then
        ["Detected " ++ toString suspicious_count ++ " unusual access patterns"] ++
        (if off_hours ≠ [] then
          ["Off-hours access detected: " ++ toString off_hours.length ++ " instances"]
        else [])
      else []
    pure { total_activities := activities.length
           suspicious_count := suspicious_count
           risk_level := risk_level
           patterns := patterns }

/-! ## Concrete inputs used in witnesses and counterexamples -/

/-- A 32-byte all-zero key, as `generate_key` could return. -/
def zeroKey : List Nat := List.replicate 32 0

/-- A 16-byte all-zero nonce, of the length `AES.new(key, AES.MODE_GCM)`
generates by default. -/
def zeroNonce : List Nat := List.replicate 16 0

/-! ## Crypto theorems -/

theorem take_of_length_eq {α : Type} {l r : List α} {n : Nat} (h : l.length = n) :
    (l ++ r).take n = l := by
  subst h; exact List.take_left l r

theorem drop_of_length_eq {α : Type} {l r : List α} {n : Nat} (h : l.length = n) :
    (l ++ r).drop n = r := by
  subst h; exact List.drop_left l r

theorem decrypt_parse (G : GCM) (key nonce p : List Nat) (hn : nonce.length = 16) :
    (encrypt_file G key nonce p).take 16 = nonce ∧
    ((encrypt_file G key nonce p).drop 16).take 16 =
      G.mac key nonce (G.enc key nonce p) ∧
    (encrypt_file G key nonce p).drop 32 = G.enc key nonce p := by
  unfold encrypt_file
  rw [List.append_assoc]
  refine ⟨take_of_length_eq hn, ?_, ?_⟩
  · rw [drop_of_length_eq hn, take_of_length_eq (G.mac_length key nonce _)]
  · have h32 : (32 : Nat) = 16 + 16 := rfl
    rw [h32, ← List.drop_drop, drop_of_length_eq hn,
      drop_of_length_eq (G.mac_length key nonce _)]

/-- C1: for every plaintext byte sequence (including the empty one), every
32-byte key and every nonce the library generates (16 bytes by default for
`AES.MODE_GCM`), `decrypt_file (encrypt_file p key) key` returns exactly
`p`, for any primitive satisfying the AES-GCM contract. -/
theorem encrypt_decrypt_round_trip (G : GCM) (key nonce p : List Nat)
    (_hk : key.length = 32) (hn : nonce.length = 16) :
    decrypt_file G key (encrypt_file G key nonce p) = .ok p := by
  obtain ⟨h1, h2, h3⟩ := decrypt_parse G key nonce p hn
  unfold decrypt_file
  rw [h1, h2, h3]
  rw [if_neg (by intro h; rw [h] at hn; simp at hn), if_pos rfl, G.dec0_enc]

/-- C1 witness: the round trip evaluated on a concrete key, nonce and
plaintext with a concrete GCM instance. -/
theorem encrypt_decrypt_round_trip_witness :
    decrypt_file toyGCM zeroKey (encrypt_file toyGCM zeroKey zeroNonce [7, 8, 9]) =
      .ok [7, 8, 9] :=
  encrypt_decrypt_round_trip toyGCM zeroKey zeroNonce [7, 8, 9]
    (by decide) (by decide)

/-- C2 counterexample: a 20-byte blob (shorter than the claimed 28-byte
minimum) and a 33-byte blob with a bad tag fail with the *same*
undifferentiated `ValueError` raised by `decrypt_and_verify`; the code has
no `MalformedInputError` / `AuthenticationError` distinction and no
28-byte length check. -/
theorem decrypt_error_classes_counterexample :
    (List.replicate 20 0 : List Nat).length < 28 ∧
    28 ≤ (List.replicate 33 0 : List Nat).length ∧
    decrypt_file toyGCM zeroKey (List.replicate 20 0) =
      .error (.valueError "MAC check failed") ∧
    decrypt_file toyGCM zeroKey (List.replicate 33 0) =
      .error (.valueError "MAC check failed") := by
  refine ⟨by decide, by decide, ?_, ?_⟩ <;> decide

/-- C2 (amended): `decrypt_file` never returns a plaintext unless the
16-byte tag it parsed verifies against the recomputed MAC, and every blob
shorter than 32 bytes fails (the parsed tag cannot be 16 bytes long, or
the nonce is empty) — but all failures are the library's undifferentiated
`ValueError`; no distinct `AuthenticationError` / `MalformedInputError`
classes and no 28-byte-minimum check exist in the code. -/
theorem decrypt_failure_behavior (G : GCM) (key blob : List Nat) :
    (∀ p, decrypt_file G key blob = .ok p →
      G.mac key (blob.take 16) (blob.drop 32) = (blob.drop 16).take 16) ∧
    (blob.length < 32 → ∃ e, decrypt_file G key blob = .error e) := by
  constructor
  · intro p hp
    unfold decrypt_file at hp
    by_cases h0 : blob.take 16 = []
    · rw [if_pos h0] at hp; exact absurd hp (by simp)
    · rw [if_neg h0] at hp
      by_cases hm : G.mac key (blob.take 16) (blob.drop 32) = (blob.drop 16).take 16
      · exact hm
      · rw [if_neg hm] at hp; exact absurd hp (by simp)
  · intro hlen
    unfold decrypt_file
    by_cases h0 : blob.take 16 = []
    · exact ⟨_, by rw [if_pos h0]⟩
    · rw [if_neg h0]
      have hmac : (G.mac key (blob.take 16) (blob.drop 32)).length = 16 :=
        G.mac_length key _ _
      have htag : ((blob.drop 16).take 16).length < 16 := by
        rw [List.length_take, List.length_drop]
        omega
      rw [if_neg (by intro h; rw [h] at hmac; omega)]
      exact ⟨_, rfl⟩

/-- C2 (amended) witness: a concrete 5-byte blob fails to decrypt. -/
theorem decrypt_failure_behavior_witness :
    ∃ e, decrypt_file toyGCM zeroKey (List.replicate 5 0) = .error e :=
  (decrypt_failure_behavior toyGCM zeroKey (List.replicate 5 0)).2 (by decide)

/-- C3 counterexample: the blob for the empty plaintext is 32 bytes, so it
admits no decomposition into a 12-byte nonce, a 16-byte tag and an
empty-length ciphertext (which would total 28 bytes), and `decrypt_file`
disagrees with a decrypt that splits at the spec's offsets 12/28: the code
round-trips the blob while the 12/28 split fails verification. -/
theorem blob_layout_counterexample :
    (¬ ∃ nonce tag ct : List Nat,
      encrypt_file toyGCM zeroKey zeroNonce [] = nonce ++ tag ++ ct ∧
      nonce.length = 12 ∧ tag.length = 16 ∧ ct.length = ([] : List Nat).length) ∧
    decrypt_file toyGCM zeroKey (encrypt_file toyGCM zeroKey zeroNonce []) ≠
      decrypt_file_specSplit toyGCM zeroKey (encrypt_file toyGCM zeroKey zeroNonce []) := by
  constructor
  · rintro ⟨nonce, tag, ct, heq, hn, ht, hc⟩
    have hlen := congrArg List.length heq
    have h32 : (encrypt_file toyGCM zeroKey zeroNonce []).length = 32 := by decide
    rw [h32, List.length_append, List.length_append, hn, ht, hc] at hlen
    simp at hlen
  · decide

/-- C3 (amended): the blob returned by `encrypt_file` is laid out as a
16-byte nonce (the library's default GCM nonce length), followed by the
16-byte authentication tag, followed by the ciphertext of the plaintext's
length, so its total length is at least 32 bytes; `decrypt_file` splits
its input at those offsets 16 and 32. -/
theorem blob_layout (G : GCM) (key nonce p : List Nat) (hn : nonce.length = 16) :
    (encrypt_file G key nonce p).length = 32 + p.length ∧
    (encrypt_file G key nonce p).take 16 = nonce ∧
    ((encrypt_file G key nonce p).drop 16).take 16 =
      G.mac key nonce (G.enc key nonce p) ∧
    (encrypt_file G key nonce p).drop 32 = G.enc key nonce p := by
  obtain ⟨h1, h2, h3⟩ := decrypt_parse G key nonce p hn
  refine ⟨?_, h1, h2, h3⟩
  unfold encrypt_file
  rw [List.length_append, List.length_append, hn, G.mac_length, G.enc_length]

/-- C3 (amended) witness: the layout evaluated on a concrete one-byte
plaintext. -/
theorem blob_layout_witness :
    (encrypt_file toyGCM zeroKey zeroNonce [3]).length = 32 + [3].length ∧
    (encrypt_file toyGCM zeroKey zeroNonce [3]).take 16 = zeroNonce ∧
    ((encrypt_file toyGCM zeroKey zeroNonce [3]).drop 16).take 16 =
      toyGCM.mac zeroKey zeroNonce (toyGCM.enc zeroKey zeroNonce [3]) ∧
    (encrypt_file toyGCM zeroKey zeroNonce [3]).drop 32 =
      toyGCM.enc zeroKey zeroNonce [3] :=
  blob_layout toyGCM zeroKey zeroNonce [3] (by decide)

/-! ## Base64 theorems -/

/-- Induction along the three-byte chunking of the base64 encoder. -/
theorem chunk3_ind {P : List Nat → Prop} (case0 : P []) (case1 : ∀ a, P [a])
    (case2 : ∀ a b, P [a, b])
    (case3 : ∀ a b c l, P l → P (a :: b :: c :: l)) : ∀ l, P l
  | [] => case0
  | [a] => case1 a
  | [a, b] => case2 a b
  | a :: b :: c :: l => case3 a b c l (chunk3_ind case0 case1 case2 case3 l)

theorem valOfChar_charOfVal : ∀ v, v < 64 → valOfChar (charOfVal v) = v := by
  decide

theorem isB64Kept_charOfVal : ∀ v, v < 64 → isB64Kept (charOfVal v) = true := by
  decide

theorem charOfVal_ne_pad : ∀ v, v < 64 → (charOfVal v != '=') = true := by
  decide

theorem encVals_lt (k : List Nat) (hb : ∀ b ∈ k, b < 256) :
    ∀ v ∈ encVals k, v < 64 := by
  induction k using chunk3_ind with
  | case0 => simp [encVals]
  | case1 a =>
    have := hb a (by simp)
    simp only [encVals, List.mem_cons, List.not_mem_nil, or_false]
    rintro v (rfl | rfl) <;> omega
  | case2 a b =>
    have ha := hb a (by simp)
    have hc := hb b (by simp)
    simp only [encVals, List.mem_cons, List.not_mem_nil, or_false]
    rintro v (rfl | rfl | rfl) <;> omega
  | case3 a b c l ih =>
    have ha := hb a (by simp)
    have hbb := hb b (by simp)
    have hcc := hb c (by simp)
    have ih' := ih (fun x hx => hb x (by simp [hx]))
    simp only [encVals, List.mem_cons]
    rintro v (rfl | rfl | rfl | rfl | hv)
    · omega
    · omega
    · omega
    · omega
    · exact ih' v hv

theorem b64encode_eq (k : List Nat) :
    b64encode k = (encVals k).map charOfVal ++ List.replicate (padLen k) '=' := by
  induction k using chunk3_ind with
  | case0 => rfl
  | case1 a => rfl
  | case2 a b => rfl
  | case3 a b c l ih => simp [b64encode, encVals, padLen, ih]

theorem encVals_padLen (k : List Nat) :
    (padLen k = 0 ∧ (encVals k).length % 4 = 0) ∨
    (padLen k = 1 ∧ (encVals k).length % 4 = 3) ∨
    (padLen k = 2 ∧ (encVals k).length % 4 = 2) := by
  induction k using chunk3_ind with
  | case0 => simp [padLen, encVals]
  | case1 a => simp [padLen, encVals]
  | case2 a b => simp [padLen, encVals]
  | case3 a b c l ih =>
    simp only [padLen, encVals, List.length_cons]
    rcases ih with ⟨h1, h2⟩ | ⟨h1, h2⟩ | ⟨h1, h2⟩
    · exact Or.inl ⟨h1, by omega⟩
    · exact Or.inr (Or.inl ⟨h1, by omega⟩)
    · exact Or.inr (Or.inr ⟨h1, by omega⟩)

theorem decodeQuads_encVals (k : List Nat) (hb : ∀ b ∈ k, b < 256) :
    decodeQuads (encVals k) = k := by
  induction k using chunk3_ind with
  | case0 => rfl
  | case1 a =>
    have := hb a (by simp)
    simp only [encVals, decodeQuads]
    congr 1
    omega
  | case2 a b =>
    have ha := hb a (by simp)
    have hc := hb b (by simp)
    simp only [encVals, decodeQuads]
    congr 1
    · omega
    · congr 1
      omega
  | case3 a b c l ih =>
    have ha := hb a (by simp)
    have hbb := hb b (by simp)
    have hcc := hb c (by simp)
    have ih' := ih (fun x hx => hb x (by simp [hx]))
    simp only [encVals, decodeQuads, ih']
    congr 1
    · omega
    · congr 1
      · omega
      · congr 1
        omega

theorem takeWhile_all_append {α : Type} (p : α → Bool) (l r : List α)
    (h : ∀ a ∈ l, p a = true) :
    (l ++ r).takeWhile p = l ++ r.takeWhile p := by
  induction l with
  | nil => rfl
  | cons x xs ih =>
    simp only [List.cons_append, List.takeWhile_cons, h x (by simp)]
    simp [ih (fun a ha => h a (by simp [ha]))]

/-- The core of the decoder correctness argument: `b64decode` depends on
its input only through the characters the lenient decoder keeps, and on
the kept characters of an encoder output it inverts the encoder. -/
theorem b64decode_of_filter (k : List Nat) (cs : List Char)
    (hb : ∀ b ∈ k, b < 256) (h : cs.filter isB64Kept = b64encode k) :
    b64decode cs = .ok k := by
  have hvals := encVals_lt k hb
  have henc := b64encode_eq k
  have hdata :
      ((encVals k).map charOfVal ++
          List.replicate (padLen k) '=').takeWhile (fun c => c != '=') =
        (encVals k).map charOfVal := by
    rw [takeWhile_all_append _ _ _
        (by
          intro a ha
          obtain ⟨v, hv, rfl⟩ := List.mem_map.mp ha
          exact charOfVal_ne_pad v (hvals v hv)),
      List.takeWhile_replicate]
    simp
  have hdrop :
      ((encVals k).map charOfVal ++
          List.replicate (padLen k) '=').drop ((encVals k).map charOfVal).length =
        List.replicate (padLen k) '=' :=
    drop_of_length_eq rfl
  have hmapval :
      ((encVals k).map charOfVal).map valOfChar = encVals k := by
    rw [List.map_map]
    have hcomp : ∀ v ∈ encVals k, (valOfChar ∘ charOfVal) v = id v := by
      intro v hv
      simp only [Function.comp_apply, id_eq]
      exact valOfChar_charOfVal v (hvals v hv)
    rw [List.map_congr_left hcomp, List.map_id]
  simp only [b64decode]
  rw [h, henc, hdata, hdrop, hmapval, decodeQuads_encVals k hb,
    List.count_replicate, List.length_map]
  rcases encVals_padLen k with ⟨h1, h2⟩ | ⟨h1, h2⟩ | ⟨h1, h2⟩ <;>
    rw [h1, h2] <;> simp

theorem filter_b64encode (k : List Nat) (hb : ∀ b ∈ k, b < 256) :
    (b64encode k).filter isB64Kept = b64encode k := by
  rw [List.filter_eq_self]
  intro a ha
  rw [b64encode_eq k] at ha
  rcases List.mem_append.mp ha with hmem | hmem
  · obtain ⟨v, hv, rfl⟩ := List.mem_map.mp hmem
    exact isB64Kept_charOfVal v (encVals_lt k hb v hv)
  · rw [List.eq_of_mem_replicate hmem]
    rfl

theorem b64encode_length_mod (k : List Nat) : (b64encode k).length % 4 = 0 := by
  rw [b64encode_eq k, List.length_append, List.length_map, List.length_replicate]
  rcases encVals_padLen k with ⟨h1, h2⟩ | ⟨h1, h2⟩ | ⟨h1, h2⟩ <;> omega

/-- C10: the textual key encoding round-trips exactly — decoding the
base64 text produced for any byte sequence (in particular any 32-byte
key) returns the original bytes. -/
theorem string_to_key_round_trip (k : List Nat) (hb : ∀ b ∈ k, b < 256) :
    string_to_key (key_to_string k) = .ok k :=
  b64decode_of_filter k (key_to_string k).data hb (filter_b64encode k hb)

/-- C10 witness: the round trip evaluated on the concrete 32-byte key
`0, 1, ..., 31`. -/
theorem string_to_key_round_trip_witness :
    string_to_key (key_to_string (List.range 32)) = .ok (List.range 32) :=
  string_to_key_round_trip (List.range 32) (by decide)

/-- C9 counterexample: `"!QUFB"` is not a valid base64 key encoding (no
encoder output has 5 characters), yet `string_to_key` silently discards
the `'!'` and returns the key bytes `"AAA"` instead of failing — and the
code has no `InvalidKeyEncodingError` at all. -/
theorem string_to_key_malformed_counterexample :
    ¬ isValidKeyEncoding "!QUFB" ∧
    string_to_key "!QUFB" = .ok [65, 65, 65] := by
  constructor
  · rintro ⟨k, hb, henc⟩
    have hdata := congrArg String.data henc
    have hlen := congrArg List.length hdata
    have hmod := b64encode_length_mod k
    have h5 : ("!QUFB".data).length = 5 := by decide
    have hkd : (key_to_string k).data = b64encode k := rfl
    rw [h5, hkd] at hlen
    rw [hlen] at hmod
    simp at hmod
  · decide

/-- C9 (amended): `string_to_key` is lenient, not validating — characters
outside the base64 alphabet are silently discarded before decoding, so any
string whose kept characters coincide with those of a valid key encoding
decodes to that key without error; the only failures are the library's
`binascii.Error` (a `ValueError`) for undecodable character counts, and no
`InvalidKeyEncodingError` exists in the code. -/
theorem string_to_key_lenient (k : List Nat) (s : String)
    (hb : ∀ b ∈ k, b < 256)
    (h : s.data.filter isB64Kept = (key_to_string k).data.filter isB64Kept) :
    string_to_key s = .ok k := by
  apply b64decode_of_filter k s.data hb
  rw [h]
  exact filter_b64encode k hb

/-- C9 (amended) witness: inserting a junk character into the encoding of
the bytes `"AAA"` still decodes to those bytes. -/
theorem string_to_key_lenient_witness :
    string_to_key "QU!FB" = .ok [65, 65, 65] :=
  string_to_key_lenient [65, 65, 65] "QU!FB" (by decide) (by decide)

/-! ## Geofence theorems -/

/-- Concrete formatting functions for evaluating the validator. -/
def fmt0 : FloatFmt := { fixed2 := fun _ => "", plain := fun _ => "" }

/-- A concrete request at the configured coordinates on the allowed
network. -/
def req0 : AccessRequest :=
  { latitude := some 0, longitude := some 0, wifi_ssid := some "Office" }

/-- A concrete configuration. -/
def cfg0 : PolicyConfig :=
  { latitude := some 0, longitude := some 0, radius := some 100,
    allowed_ssid := some "Office", start_time := some "09:00",
    end_time := some "17:00" }

theorem validate_location_fst (fmt : FloatFmt)
    (employee_lat employee_lon config_lat config_lon radius : ℝ) :
    (validate_location fmt employee_lat employee_lon config_lat config_lon
        radius).1 = true ↔
      calculate_distance employee_lat employee_lon config_lat config_lon ≤
        radius := by
  unfold validate_location
  by_cases h :
    calculate_distance employee_lat employee_lon config_lat config_lon ≤ radius
  · simp [h]
  · simp [h]

theorem validate_access_fields (fmt : FloatFmt) (req : AccessRequest)
    (cfg : PolicyConfig) (now : String) :
    (validate_access fmt req cfg false now).allowed =
      ((validate_location fmt (req.latitude.getD 0) (req.longitude.getD 0)
          (cfg.latitude.getD 0) (cfg.longitude.getD 0) (cfg.radius.getD 100)).1 &&
        (validate_wifi (req.wifi_ssid.getD "") (cfg.allowed_ssid.getD "")).1 &&
        (validate_time (cfg.start_time.getD "09:00") (cfg.end_time.getD "17:00")
          now).1) ∧
    (validate_access fmt req cfg false now).validations =
      { location := (validate_location fmt (req.latitude.getD 0)
          (req.longitude.getD 0) (cfg.latitude.getD 0) (cfg.longitude.getD 0)
          (cfg.radius.getD 100)).2
        wifi := (validate_wifi (req.wifi_ssid.getD "") (cfg.allowed_ssid.getD "")).2
        time := (validate_time (cfg.start_time.getD "09:00")
          (cfg.end_time.getD "17:00") now).2 } := by
  constructor <;> rfl

/-- C6: for every request and configuration, the location signal is valid
exactly when the haversine great-circle distance (mean Earth radius
6 371 000 m) between the request's and the configured coordinates is at
most the configured radius: equality at the boundary is allowed, any
strictly greater distance is denied. -/
theorem location_valid_iff_within_radius (fmt : FloatFmt)
    (employee_lat employee_lon config_lat config_lon radius : ℝ) :
    (validate_location fmt employee_lat employee_lon config_lat config_lon
        radius).1 = true ↔
      calculate_distance employee_lat employee_lon config_lat config_lon ≤
        radius :=
  validate_location_fst fmt employee_lat employee_lon config_lat config_lon radius

/-- C5: with the override flag false, `allowed` is the conjunction of the
three signal results, `reason` is "Access granted" when all pass and
otherwise the semicolon-joined messages of exactly the failing signals in
the fixed order location, wifi (the spec's "network" signal), time, and
the diagnostics map always carries all three messages. -/
theorem validate_access_structure (fmt : FloatFmt) (req : AccessRequest)
    (cfg : PolicyConfig) (now : String) :
    (validate_access fmt req cfg false now).allowed =
      ((validate_location fmt (req.latitude.getD 0) (req.longitude.getD 0)
          (cfg.latitude.getD 0) (cfg.longitude.getD 0) (cfg.radius.getD 100)).1 &&
        (validate_wifi (req.wifi_ssid.getD "") (cfg.allowed_ssid.getD "")).1 &&
        (validate_time (cfg.start_time.getD "09:00") (cfg.end_time.getD "17:00")
          now).1) ∧
    (validate_access fmt req cfg false now).reason =
      (if (validate_location fmt (req.latitude.getD 0) (req.longitude.getD 0)
            (cfg.latitude.getD 0) (cfg.longitude.getD 0) (cfg.radius.getD 100)).1 &&
          (validate_wifi (req.wifi_ssid.getD "") (cfg.allowed_ssid.getD "")).1 &&
          (validate_time (cfg.start_time.getD "09:00") (cfg.end_time.getD "17:00")
            now).1
        then "Access granted"
        else String.intercalate "; " (failingMessages
          [validate_location fmt (req.latitude.getD 0) (req.longitude.getD 0)
            (cfg.latitude.getD 0) (cfg.longitude.getD 0) (cfg.radius.getD 100),
           validate_wifi (req.wifi_ssid.getD "") (cfg.allowed_ssid.getD ""),
           validate_time (cfg.start_time.getD "09:00") (cfg.end_time.getD "17:00")
             now])) ∧
    (validate_access fmt req cfg false now).validations =
      { location := (validate_location fmt (req.latitude.getD 0)
          (req.longitude.getD 0) (cfg.latitude.getD 0) (cfg.longitude.getD 0)
          (cfg.radius.getD 100)).2
        wifi := (validate_wifi (req.wifi_ssid.getD "") (cfg.allowed_ssid.getD "")).2
        time := (validate_time (cfg.start_time.getD "09:00")
          (cfg.end_time.getD "17:00") now).2 } := by
  rcases hL : validate_location fmt (req.latitude.getD 0) (req.longitude.getD 0)
    (cfg.latitude.getD 0) (cfg.longitude.getD 0) (cfg.radius.getD 100) with ⟨lv, lm⟩
  rcases hW : validate_wifi (req.wifi_ssid.getD "") (cfg.allowed_ssid.getD "")
    with ⟨wv, wm⟩
  rcases hT : validate_time (cfg.start_time.getD "09:00")
    (cfg.end_time.getD "17:00") now with ⟨tv, tm⟩
  simp only [validate_access, hL, hW, hT, failingMessages]
  cases lv <;> cases wv <;> cases tv <;>
    simp [String.intercalate]

/-- C4 counterexample: under the override the code's reason string is
"Work from home approved", not the spec's "override granted", so the
claimed decision value is not the one returned. -/
theorem override_reason_counterexample :
    validate_access fmt0 req0 cfg0 true "10:00" ≠
      { allowed := true, reason := "override granted",
        validations := { location := "bypassed", wifi := "bypassed",
                         time := "bypassed" } } := by
  intro h
  have h0 : validate_access fmt0 req0 cfg0 true "10:00" =
      { allowed := true, reason := "Work from home approved",
        validations := { location := "bypassed", wifi := "bypassed",
                         time := "bypassed" } } := rfl
  rw [h0] at h
  simp at h

/-- C4 (amended): for every request, configuration and clock reading, when
the override (work-from-home) flag is true, `validate_access` returns
`allowed = true` with reason "Work from home approved" and all three
diagnostics "bypassed", without evaluating the location, wifi or time
signals — any combination of failing signals still yields `allowed = true`. -/
theorem validate_access_override (fmt : FloatFmt) (req : AccessRequest)
    (cfg : PolicyConfig) (now : String) :
    validate_access fmt req cfg true now =
      { allowed := true, reason := "Work from home approved",
        validations := { location := "bypassed", wifi := "bypassed",
                         time := "bypassed" } } := rfl

theorem calculate_distance_self (lat lon : ℝ) :
    calculate_distance lat lon lat lon = 0 := by
  unfold calculate_distance radians atan2
  norm_num [Real.sin_zero, Real.sqrt_zero, Real.sqrt_one, Real.arctan_zero]

/-- C7 counterexample: the decision depends on the wall-clock time read
during evaluation: the same request, configuration and override flag give
a denial at 08:00 and a grant at 10:00 under the 09:00–17:00 window, so
two invocations with identical request, configuration and override flag
need not return identical decisions. -/
theorem validate_access_clock_counterexample :
    validate_access fmt0 req0 cfg0 false "08:00" ≠
      validate_access fmt0 req0 cfg0 false "10:00" := by
  have hL : (validate_location fmt0 (req0.latitude.getD 0)
      (req0.longitude.getD 0) (cfg0.latitude.getD 0) (cfg0.longitude.getD 0)
      (cfg0.radius.getD 100)).1 = true := by
    rw [validate_location_fst]
    show calculate_distance 0 0 0 0 ≤ 100
    rw [calculate_distance_self]
    norm_num
  have hW : (validate_wifi (req0.wifi_ssid.getD "")
      (cfg0.allowed_ssid.getD "")).1 = true := by decide
  have hT10 : (validate_time (cfg0.start_time.getD "09:00")
      (cfg0.end_time.getD "17:00") "10:00").1 = true := by decide
  have hT8 : (validate_time (cfg0.start_time.getD "09:00")
      (cfg0.end_time.getD "17:00") "08:00").1 = false := by decide
  intro h
  have hal := congrArg AccessDecision.allowed h
  rw [(validate_access_fields fmt0 req0 cfg0 "08:00").1,
    (validate_access_fields fmt0 req0 cfg0 "10:00").1, hL, hW, hT10, hT8] at hal
  simp at hal

/-- C7 (amended): the decision is a pure function of the request, the
configuration, the override flag *and the wall-clock reading made during
evaluation*: two invocations that agree on all four return identical
decisions (allowed, reason, and all three diagnostics). -/
theorem validate_access_deterministic (fmt : FloatFmt) (req : AccessRequest)
    (cfg : PolicyConfig) (wfh_approved : Bool) (now₁ now₂ : String)
    (h : now₁ = now₂) :
    validate_access fmt req cfg wfh_approved now₁ =
      validate_access fmt req cfg wfh_approved now₂ := by
  rw [h]

/-- C7 (amended) witness: determinism applied at a concrete input. -/
theorem validate_access_deterministic_witness :
    validate_access fmt0 req0 cfg0 false "10:00" =
      validate_access fmt0 req0 cfg0 false "10:00" :=
  validate_access_deterministic fmt0 req0 cfg0 false "10:00" "10:00" rfl

/-! ## Anomaly-detection theorems -/

/-- A concrete ISO-timestamp parser for evaluation: it parses exactly one
string. -/
def parse0 : String → Option (Nat × Nat) :=
  fun t => if t = "2024-01-01T10:00:00" then some (10, 0) else none

/-- A trained detector whose model flags nothing. -/
def det0 : AnomalyDetector :=
  { is_trained := true, predict := fun fs => fs.map (fun _ => false) }

/-- An activity with a parsable string timestamp. -/
def goodAct : Activity := { timestamp := some (.str "2024-01-01T10:00:00") }

/-- An activity with an unparsable string timestamp. -/
def badAct : Activity := { timestamp := some (.str "nonsense") }

/-- C8 counterexample: analysing a batch whose second entry has an
unparsable timestamp does not complete on the remaining entries — the
`ValueError` from `fromisoformat` propagates out of `extract_features`
uncaught and aborts the whole analysis; there is no
`MalformedTimestampError` and no per-entry exclusion in the code. -/
theorem analyze_malformed_timestamp_counterexample :
    analyze_employee_behavior parse0 det0 [goodAct, badAct] =
      .error (.valueError "Invalid isoformat string") ∧
    extract_features parse0 [goodAct, badAct] =
      .error (.valueError "Invalid isoformat string") := by
  constructor <;> rfl

/-- C8 (amended): when the detector is trained, a single unparsable
timestamp anywhere after well-formed entries raises `ValueError` from
`fromisoformat`, which aborts the entire feature extraction and hence the
entire analysis for the identity — the malformed entry is not excluded and
the remaining entries are not analysed.  (When the detector is untrained,
`detect_anomalies` returns all-false without ever extracting features, so
no parsing happens at all.) -/
theorem analyze_aborts_on_malformed_timestamp
    (parseIso : String → Option (Nat × Nat)) (d : AnomalyDetector)
    (pre post : List Activity) (s : String)
    (htr : d.is_trained = true)
    (hpre : ∃ fs, pre.mapM (featureOf parseIso) = Except.ok fs)
    (hs : parseIso s = none) :
    analyze_employee_behavior parseIso d
        (pre ++ { timestamp := some (.str s) } :: post) =
      .error (.valueError "Invalid isoformat string") := by
  obtain ⟨fs, hfs⟩ := hpre
  have hne : pre ++ ({ timestamp := some (.str s) } : Activity) :: post ≠ [] := by
    simp
  have hx : featureOf parseIso { timestamp := some (.str s) } =
      .error (.valueError "Invalid isoformat string") := by
    simp [featureOf, hs]
  have hext : extract_features parseIso
      (pre ++ { timestamp := some (.str s) } :: post) =
      .error (.valueError "Invalid isoformat string") := by
    unfold extract_features
    rw [if_neg hne, List.mapM_append, hfs, List.mapM_cons, hx]
    rfl
  unfold analyze_employee_behavior detect_anomalies
  rw [if_neg hne, htr]
  simp only [Bool.not_true, Bool.false_eq_true, if_false, hext]
  rfl

/-- C8 (amended) witness: the abort evaluated on a concrete batch with one
well-formed entry before the malformed one. -/
theorem analyze_aborts_on_malformed_timestamp_witness :
    analyze_employee_behavior parse0 det0 [goodAct, { timestamp := some (.str "zzz") }] =
      .error (.valueError "Invalid isoformat string") :=
  analyze_aborts_on_malformed_timestamp parse0 det0 [goodAct] [] "zzz"
    (by decide) ⟨[[10, 0, 1]], by rfl⟩ (by decide)

end GeoCrypt
